import Mathlib

/-
Formal model of the Xiaohongshu routes of this repository:
the QR-login session manager (src/lib/routes/xiaohongshu/board.ts),
the runtime cookie holder (src/lib/routes/xiaohongshu/cookie.ts), and
the collect extraction pipeline (src/lib/routes/xiaohongshu/util.ts).
Pure functions are translated directly; timer-driven and awaited code is
modelled by explicit state passing, with the outcomes of external
browser-automation calls supplied as explicit environment parameters.
-/

/- ### Model of src/lib/routes/xiaohongshu/cookie.ts -/

/-- The two module-level slots of cookie.ts: `runtimeCookie` and
`runtimeUpdatedAt`. -/
structure CookieState where
  runtimeCookie : Option String
  runtimeUpdatedAt : Option Nat
  deriving DecidableEq, Repr

/-- Whitespace characters in the sense of JavaScript string trimming
(the subset relevant to cookie strings). -/
def isJsWhitespace (c : Char) : Bool :=
  c = ' ' || c = '\t' || c = '\n' || c = '\r' || c = '\x0b' || c = '\x0c'

/-- JavaScript `String.prototype.trim`: drop whitespace from both ends. -/
def jsTrim (s : String) : String :=
  String.mk (((s.data.dropWhile isJsWhitespace).reverse.dropWhile isJsWhitespace).reverse)

/-- `normalizeCookie` of cookie.ts: a falsy argument (undefined or the empty
string) yields undefined; otherwise the trimmed string, or undefined when
the trimmed string is empty. -/
def normalizeCookie : Option String → Option String
  | none => none
  | some c =>
    if c = "" then none
    else
      let trimmed := jsTrim c
      if trimmed = "" then none else some trimmed

/-- `setRuntimeCookie` of cookie.ts: stores the normalized cookie and stamps
`runtimeUpdatedAt` with the current time exactly when the stored value is
truthy. -/
def setRuntimeCookie (_st : CookieState) (now : Nat) (cookie : Option String) : CookieState :=
  let rc := normalizeCookie cookie
  { runtimeCookie := rc
    runtimeUpdatedAt := match rc with | some _ => some now | none => none }

/-- `clearRuntimeCookie` of cookie.ts: empties both slots. -/
def clearRuntimeCookie (_st : CookieState) : CookieState :=
  { runtimeCookie := none, runtimeUpdatedAt := none }

/-- `getCookieValue` of cookie.ts: the runtime cookie when set, otherwise the
configured cookie (`config.xiaohongshu.cookie`, passed as a parameter). -/
def getCookieValue (st : CookieState) (configCookie : Option String) : Option String :=
  match st.runtimeCookie with
  | some v => some v
  | none => configCookie

/-- C10: the single-slot active-cookie holder prefers the runtime value:
`getCookieValue` returns the runtime cookie when one is set and otherwise the
configured cookie; `setRuntimeCookie` with undefined, an empty string, or a
whitespace-only string leaves the runtime slot empty, acting exactly like
`clearRuntimeCookie`, so `getCookieValue` then falls back to the configured
cookie. -/
theorem c10_runtime_cookie_preference (st : CookieState) (now : Nat)
    (cookie : Option String) (configCookie : Option String) :
    (∀ v, st.runtimeCookie = some v → getCookieValue st configCookie = some v) ∧
    (st.runtimeCookie = none → getCookieValue st configCookie = configCookie) ∧
    (jsTrim (cookie.getD "") = "" →
      setRuntimeCookie st now cookie = clearRuntimeCookie st ∧
      getCookieValue (setRuntimeCookie st now cookie) configCookie = configCookie) := by
  refine ⟨fun v hv => ?_, fun hn => ?_, fun hblank => ?_⟩
  · simp [getCookieValue, hv]
  · simp [getCookieValue, hn]
  · have hnorm : normalizeCookie cookie = none := by
      cases cookie with
      | none => rfl
      | some c =>
        simp only [Option.getD] at hblank
        by_cases hc : c = ""
        · simp [normalizeCookie, hc]
        · simp [normalizeCookie, hc, hblank]
    constructor
    · simp [setRuntimeCookie, clearRuntimeCookie, hnorm]
    · simp [setRuntimeCookie, getCookieValue, hnorm]

/-- Witness for C10 at concrete inputs: setting a whitespace-only runtime
cookie clears the slot and the configured cookie wins. -/
theorem c10_runtime_cookie_preference_witness :
    setRuntimeCookie ⟨some "a=b", some 3⟩ 7 (some "  ") = clearRuntimeCookie ⟨some "a=b", some 3⟩ ∧
    getCookieValue (setRuntimeCookie ⟨some "a=b", some 3⟩ 7 (some "  ")) (some "cfg=1") = some "cfg=1" :=
  (c10_runtime_cookie_preference ⟨some "a=b", some 3⟩ 7 (some "  ") (some "cfg=1")).2.2 (by decide)

/- ### Model of src/lib/routes/xiaohongshu/board.ts: the QR-login session manager -/

/-- The `status` field of a `LoginSession`: `pending` is the only
non-terminal state. -/
inductive SessionStatus where
  | pending
  | success
  | expired
  | failed
  deriving DecidableEq, Repr

/-- The `LoginSession` record of board.ts. The browser page handle, its
teardown function and the three timer handles are modelled by presence
booleans: the claims only depend on whether each is set. -/
structure LoginSession where
  id : String
  status : SessionStatus
  createdAt : Nat
  page : Bool
  destory : Bool
  cookie : Option String
  error : Option String
  monitor : Bool
  expireTimer : Bool
  removalTimer : Bool
  deriving DecidableEq, Repr

/-- `SESSION_TTL` of board.ts (milliseconds). -/
def SESSION_TTL : Nat := 5 * 60 * 1000

/-- Removal grace period armed by `cleanupSessionResources` (milliseconds). -/
def REMOVAL_GRACE : Nat := 2 * 60 * 1000

/-- The `loginSessions` map, as an association list keyed by session id. -/
def SessionStore : Type := List (String × LoginSession)

/-- `loginSessions.get(id)`. -/
def storeGet : SessionStore → String → Option LoginSession
  | [], _ => none
  | (k, v) :: rest, id => if k = id then some v else storeGet rest id

/-- `loginSessions.set(id, session)`: replace the binding for `id`, or append
a new one. -/
def storeSet : SessionStore → String → LoginSession → SessionStore
  | [], id, v => [(id, v)]
  | (k, w) :: rest, id, v => if k = id then (id, v) :: rest else (k, w) :: storeSet rest id v

/-- `loginSessions.delete(id)`: remove the binding for `id`. -/
def storeDelete : SessionStore → String → SessionStore
  | [], _ => []
  | (k, v) :: rest, id => if k = id then storeDelete rest id else (k, v) :: storeDelete rest id

/-- The mutable state of board.ts: the session table, the shared
single-slot runtime cookie holder of cookie.ts that `monitorSession`
publishes to, and the multiset (as a list) of session ids with an
outstanding awaited `page.cookies()` read. The last component records that
`monitorSession` suspends at its await: the guard and the writes are
separate atomic steps, and several reads for one session may be in flight
at once (the interval keeps firing while the session stays pending). -/
structure World where
  sessions : SessionStore
  cookieSlot : CookieState
  inflight : List String

/-- The state at process start: empty session table, empty cookie slot, no
reads in flight. -/
def initWorld : World :=
  { sessions := [], cookieSlot := { runtimeCookie := none, runtimeUpdatedAt := none }
    inflight := [] }

/-- `cleanupSessionResources` of board.ts: cancel the monitor and expire
timers if still armed, invoke the page teardown when a page and teardown
are held (any teardown rejection is swallowed and logged, so
`destoryThrows` does not affect the resulting state), clear the page and
teardown references, and arm the one-shot removal timer if not already
armed. Returns the updated session, whether the teardown was invoked, and
whether the removal timer was armed by this call. -/
def cleanupSessionResources (s : LoginSession) (_destoryThrows : Bool) :
    LoginSession × Bool × Bool :=
  let s1 := if s.monitor then { s with monitor := false } else s
  let s2 := if s1.expireTimer then { s1 with expireTimer := false } else s1
  let invoked := s2.page && s2.destory
  let s3 := if s2.page && s2.destory then { s2 with page := false, destory := false } else s2
  let armed := !s3.removalTimer
  let s4 := if s3.removalTimer then s3 else { s3 with removalTimer := true }
  (s4, invoked, armed)

/-- Environment of one `createLoginSession` call: whether
`getPuppeteerPage` resolves, whether `page.setViewport` resolves, whether
the `waitForSelector` for a QR element succeeds within its timeout, and
whether the `destory` teardown invoked on wait failure rejects.

Modelled from the spec: `getPuppeteerPage` lives in the repository outside
src/ (an external browser-automation provider per the spec); per the spec,
on navigation failure it propagates the failure without leaking a page, so
a `pageOpenOk = false` call acquires nothing. -/
structure CreateEnv where
  pageOpenOk : Bool
  viewportOk : Bool
  waitOk : Bool
  destoryThrows : Bool
  deriving DecidableEq, Repr

/-- `createLoginSession` of board.ts. Returns the result handed to the
caller (the new session, or an error), the resulting world, and whether
the page teardown was invoked by this call. On `waitForSelector` failure
the teardown is invoked and the error is rethrown; only on success is a
`pending` session registered with the monitor and expire timers armed. -/
def createLoginSession (w : World) (id : String) (now : Nat) (env : CreateEnv) :
    Except Unit LoginSession × World × Bool :=
  if !env.pageOpenOk then (Except.error (), w, false)
  else if !env.viewportOk then (Except.error (), w, false)
  else if !env.waitOk then (Except.error (), w, true)
  else
    let s : LoginSession :=
      { id := id, status := SessionStatus.pending, createdAt := now
        page := true, destory := true, cookie := none, error := none
        monitor := true, expireTimer := true, removalTimer := false }
    (Except.ok s, { w with sessions := storeSet w.sessions id s }, false)

/-- Outcome of the `page.cookies()` read inside one monitor tick: the
cookie jar as name-value pairs, or a thrown error message. -/
inductive MonitorRead where
  | cookies (cs : List (String × String))
  | fail (msg : String)
  deriving DecidableEq, Repr

/-- The cookie-string assembly of `monitorSession`:
`cookies.map((c) => name=value).join('; ')`. -/
def joinCookies (cs : List (String × String)) : String :=
  String.intercalate "; " (cs.map (fun c => c.1 ++ "=" ++ c.2))

/-- The synchronous prefix of `monitorSession` in board.ts: re-read the
session and check the guard (exists, still `pending`, page held). When
the guard passes, an awaited `page.cookies()` read is issued and the
function suspends; the read is recorded as in flight. When the guard
fails, the tick does nothing. -/
def monitorSessionFire (w : World) (sessionId : String) : World :=
  match storeGet w.sessions sessionId with
  | none => w
  | some s =>
    if s.status = SessionStatus.pending ∧ s.page = true then
      { w with inflight := sessionId :: w.inflight }
    else w

/-- The continuation of `monitorSession` in board.ts after its awaited
`page.cookies()` read settles. The source performs NO re-check here: if
the read resolved and the jar contains `web_session`, the cookie string is
assembled, published via `setRuntimeCookie` (a global side effect that
happens even if the session has meanwhile left the table), the session's
cookie and status are overwritten (whatever the status had become in the
meantime) and cleanup runs; if the read rejected, the catch overwrites
status and error (without clearing a previously set cookie) and cleanup
runs. Mutations of a session already deleted from the table act on an
unreachable object and are invisible to the table. -/
def monitorSessionSettle (w : World) (sessionId : String) (now : Nat) (read : MonitorRead)
    (destoryThrows : Bool) : World :=
  match read with
  | MonitorRead.cookies cs =>
    if cs.any (fun c => c.1 = "web_session") then
      let str := joinCookies cs
      let slot := setRuntimeCookie w.cookieSlot now (some str)
      match storeGet w.sessions sessionId with
      | some s =>
        let s1 := { s with cookie := some str, status := SessionStatus.success }
        let s2 := (cleanupSessionResources s1 destoryThrows).1
        { w with sessions := storeSet w.sessions sessionId s2, cookieSlot := slot }
      | none => { w with cookieSlot := slot }
    else w
  | MonitorRead.fail msg =>
    match storeGet w.sessions sessionId with
    | some s =>
      let s1 := { s with status := SessionStatus.failed, error := some msg }
      let s2 := (cleanupSessionResources s1 destoryThrows).1
      { w with sessions := storeSet w.sessions sessionId s2 }
    | none => w

/-- `markSessionExpired` of board.ts: a no-op on a missing session;
otherwise moves the session to `expired` only if it is still `pending`,
and always runs cleanup. -/
def markSessionExpired (w : World) (sessionId : String) (destoryThrows : Bool) : World :=
  match storeGet w.sessions sessionId with
  | none => w
  | some s =>
    let s1 := if s.status = SessionStatus.pending
      then { s with status := SessionStatus.expired } else s
    let s2 := (cleanupSessionResources s1 destoryThrows).1
    { w with sessions := storeSet w.sessions sessionId s2 }

/-- Response of `serveStatus`: 404 with status missing, or the 200 JSON
projection of the session. -/
inductive StatusRes where
  | missing
  | info (id : String) (status : SessionStatus) (cookie : Option String)
      (error : Option String) (expiresAt : Nat)
  deriving DecidableEq, Repr

/-- `serveStatus` of board.ts: a missing id yields the 404 missing
response; otherwise the projection with the cookie included only when the
status is `success`, the error field as stored, and the absolute expiry
timestamp `createdAt + SESSION_TTL`. The session table is not touched. -/
def serveStatus (w : World) (sessionId : String) : StatusRes :=
  match storeGet w.sessions sessionId with
  | none => StatusRes.missing
  | some s =>
    StatusRes.info s.id s.status
      (if s.status = SessionStatus.success then s.cookie else none)
      s.error (s.createdAt + SESSION_TTL)

/-- Decidable equality for `Except`, used to evaluate the model on
concrete inputs. -/
instance {e a : Type} [DecidableEq e] [DecidableEq a] : DecidableEq (Except e a) := fun x y =>
  match x, y with
  | Except.ok u, Except.ok v =>
    if h : u = v then Decidable.isTrue (by rw [h]) else Decidable.isFalse (by simp [h])
  | Except.error u, Except.error v =>
    if h : u = v then Decidable.isTrue (by rw [h]) else Decidable.isFalse (by simp [h])
  | Except.ok _, Except.error _ => Decidable.isFalse (by simp)
  | Except.error _, Except.ok _ => Decidable.isFalse (by simp)

/-- Behaviour of one selector probe inside `captureQRCode`: whether
`page.$(selector)` finds an element, and what its `screenshot` call does
(PNG bytes, or a thrown error message). -/
structure SelProbe where
  present : Bool
  shot : Except String (List Nat)
  deriving DecidableEq, Repr

/-- The ordered selector list of `captureQRCode` in board.ts. -/
def qrSelectors : List String :=
  [".login-container img", ".login-qrcode img", ".reds-login-qrcode img",
   "img[src*=\"qrcode\"]", "canvas[aria-label*=qrcode]"]

/-- The selector loop of `captureQRCode`: for each selector in order, if an
element is present take its screenshot; a screenshot failure is logged and
the loop continues with the next selector. When the list is exhausted the
full-page screenshot is returned. -/
def captureFrom (probe : String → SelProbe) (fullShot : Except String (List Nat)) :
    List String → Except String (List Nat)
  | [] => fullShot
  | sel :: rest =>
    if (probe sel).present then
      match (probe sel).shot with
      | Except.ok b => Except.ok b
      | Except.error _ => captureFrom probe fullShot rest
    else captureFrom probe fullShot rest

/-- `captureQRCode` of board.ts over the fixed selector list. -/
def captureQRCode (probe : String → SelProbe) (fullShot : Except String (List Nat)) :
    Except String (List Nat) :=
  captureFrom probe fullShot qrSelectors

/-- Response of `serveQRCode`: 404 session_inactive, 200 PNG bytes, or
500 qrcode_unavailable with the failure message. -/
inductive QRRes where
  | inactive
  | png (bytes : List Nat)
  | unavailable (msg : String)
  deriving DecidableEq, Repr

/-- `serveQRCode` of board.ts: a missing session, a session that is not
`pending`, or one with no live page yields the 404 session_inactive
response; otherwise `captureQRCode` runs, a successful screenshot is
served as 200 PNG bytes, and a thrown screenshot failure is served as the
500 qrcode_unavailable response carrying the message. -/
def serveQRCode (w : World) (sessionId : String) (probe : String → SelProbe)
    (fullShot : Except String (List Nat)) : QRRes :=
  match storeGet w.sessions sessionId with
  | none => QRRes.inactive
  | some s =>
    if s.status = SessionStatus.pending ∧ s.page = true then
      match captureQRCode probe fullShot with
      | Except.ok b => QRRes.png b
      | Except.error m => QRRes.unavailable m
    else QRRes.inactive

/-- One atomic step of the session manager on the single cooperative
scheduler: a `GET /login` creating a session (with its environment and
the fresh id chosen by randomUUID), a monitor interval tick up to its
await (`monitorFire`), the settling of one in-flight `page.cookies()`
read with its continuation (`cookiesSettle`), the expire timer firing,
the removal timer firing, a status poll, or a QR request. -/
inductive Op where
  | create (id : String) (now : Nat) (env : CreateEnv)
  | monitorFire (id : String)
  | cookiesSettle (id : String) (now : Nat) (read : MonitorRead) (destoryThrows : Bool)
  | expireTick (id : String) (destoryThrows : Bool)
  | removalTick (id : String)
  | statusPoll (id : String)
  | qrPoll (id : String)
  deriving DecidableEq, Repr

/-- Effect of one operation on the world. A `cookiesSettle` step is
possible only for a read actually in flight (issued by an earlier
`monitorFire` whose guard passed) and consumes it. `statusPoll` and
`qrPoll` are reads: `serveStatus` and `serveQRCode` never write the
table. -/
def applyOp (w : World) : Op → World
  | Op.create id now env => (createLoginSession w id now env).2.1
  | Op.monitorFire id => monitorSessionFire w id
  | Op.cookiesSettle id now read dt =>
    if id ∈ w.inflight
    then monitorSessionSettle { w with inflight := w.inflight.erase id } id now read dt
    else w
  | Op.expireTick id dt => markSessionExpired w id dt
  | Op.removalTick id => { w with sessions := storeDelete w.sessions id }
  | Op.statusPoll _ => w
  | Op.qrPoll _ => w

/-- Run a sequence of operations from a world. -/
def run (w : World) : List Op → World
  | [] => w
  | op :: ops => run (applyOp w op) ops

/-- C3: cleanup is idempotent. After one `cleanupSessionResources` call the
monitor and expire timers are cancelled and the removal timer is armed; a
second call returns the state unchanged, does not invoke the teardown
again, and does not arm the removal timer again (so the removal timer is
armed at most once across all calls); when the page and teardown
references are held together, the first call also clears both. The
teardown outcome flags do not affect any of this (release errors are
swallowed). -/
theorem c3_cleanup_idempotent (s : LoginSession) (dt dt' : Bool) :
    cleanupSessionResources (cleanupSessionResources s dt).1 dt' =
      ((cleanupSessionResources s dt).1, false, false) ∧
    (cleanupSessionResources s dt).1.monitor = false ∧
    (cleanupSessionResources s dt).1.expireTimer = false ∧
    (cleanupSessionResources s dt).1.removalTimer = true ∧
    (s.page = s.destory →
      (cleanupSessionResources s dt).1.page = false ∧
      (cleanupSessionResources s dt).1.destory = false) := by
  obtain ⟨i, st, ca, pg, ds, ck, er, mo, ex, rm⟩ := s
  cases pg <;> cases ds <;> cases mo <;> cases ex <;> cases rm <;>
    simp [cleanupSessionResources]

/-- C5: session creation is atomic with respect to the session table. If
the page cannot be opened the failure propagates and the table is
unchanged (nothing was acquired); if the QR-element wait fails the
teardown is invoked, the failure propagates, and the table is unchanged;
only on success is a new `pending` session registered, holding the page
and teardown, with the monitor and expire timers armed. -/
theorem c5_create_atomic (w : World) (id : String) (now : Nat) (env : CreateEnv) :
    (env.pageOpenOk = false →
      createLoginSession w id now env = (Except.error (), w, false)) ∧
    (env.pageOpenOk = true → env.viewportOk = true → env.waitOk = false →
      createLoginSession w id now env = (Except.error (), w, true)) ∧
    (env.pageOpenOk = true → env.viewportOk = true → env.waitOk = true →
      ∃ s, createLoginSession w id now env =
          (Except.ok s, { w with sessions := storeSet w.sessions id s }, false) ∧
        s.status = SessionStatus.pending ∧ s.monitor = true ∧ s.expireTimer = true ∧
        s.page = true ∧ s.destory = true ∧ s.id = id ∧ s.createdAt = now ∧
        s.cookie = none ∧ s.error = none ∧ s.removalTimer = false) := by
  obtain ⟨po, vo, wo, dth⟩ := env
  refine ⟨fun hpo => ?_, fun hpo hvo hwo => ?_, fun hpo hvo hwo => ?_⟩
  · subst hpo; simp [createLoginSession]
  · subst hpo; subst hvo; subst hwo; simp [createLoginSession]
  · subst hpo; subst hvo; subst hwo
    exact ⟨_, rfl, by simp⟩

/-- Witness for C5 at concrete inputs: a fully successful creation
registers a pending session with both timers armed. -/
theorem c5_create_atomic_witness :
    ∃ s, createLoginSession initWorld "a" 0 ⟨true, true, true, false⟩ =
        (Except.ok s, { initWorld with sessions := storeSet initWorld.sessions "a" s }, false) ∧
      s.status = SessionStatus.pending ∧ s.monitor = true ∧ s.expireTimer = true ∧
      s.page = true ∧ s.destory = true ∧ s.id = "a" ∧ s.createdAt = 0 ∧
      s.cookie = none ∧ s.error = none ∧ s.removalTimer = false :=
  (c5_create_atomic initWorld "a" 0 ⟨true, true, true, false⟩).2.2 rfl rfl rfl

/-- C6: status polling returns the missing response exactly when the id is
absent; otherwise it returns the projection of the session with the
cookie included only when the status is `success`, the stored error, and
the expiry timestamp `createdAt + SESSION_TTL`; and it never mutates the
world, at any lifecycle point. -/
theorem c6_status_poll (w : World) (sessionId : String) :
    (storeGet w.sessions sessionId = none ↔ serveStatus w sessionId = StatusRes.missing) ∧
    (∀ s, storeGet w.sessions sessionId = some s →
      ∃ ck, serveStatus w sessionId =
          StatusRes.info s.id s.status ck s.error (s.createdAt + SESSION_TTL) ∧
        (s.status = SessionStatus.success → ck = s.cookie) ∧
        (s.status ≠ SessionStatus.success → ck = none)) ∧
    applyOp w (Op.statusPoll sessionId) = w := by
  refine ⟨?_, ?_, rfl⟩
  · cases h : storeGet w.sessions sessionId <;> simp [serveStatus, h]
  · intro s hs
    by_cases hst : s.status = SessionStatus.success
    · exact ⟨s.cookie, by simp [serveStatus, hs, hst], fun _ => rfl, fun hn => absurd hst hn⟩
    · exact ⟨none, by simp [serveStatus, hs, hst], fun h => absurd h hst, fun _ => rfl⟩

/-- Witness for C6 at concrete inputs: polling a cleaned-up but not yet
removed expired session still returns its projection. -/
theorem c6_status_poll_witness :
    ∃ ck, serveStatus
        { sessions := [("e", ⟨"e", SessionStatus.expired, 4, false, false, none, none,
            false, false, true⟩)],
          cookieSlot := { runtimeCookie := none, runtimeUpdatedAt := none }, inflight := [] } "e" =
        StatusRes.info "e" SessionStatus.expired ck none (4 + SESSION_TTL) ∧
      (SessionStatus.expired = SessionStatus.success → ck = none) ∧
      (SessionStatus.expired ≠ SessionStatus.success → ck = none) :=
  (c6_status_poll
    { sessions := [("e", ⟨"e", SessionStatus.expired, 4, false, false, none, none,
        false, false, true⟩)],
      cookieSlot := { runtimeCookie := none, runtimeUpdatedAt := none }, inflight := [] } "e").2.1
    ⟨"e", SessionStatus.expired, 4, false, false, none, none, false, false, true⟩ (by decide)

/-- C7: the two QR failure kinds are kept apart. A missing session, a
session that is not `pending`, and a session without a live page each get
the 404 session_inactive response; a live pending session whose screenshot
capture throws gets the 500 qrcode_unavailable response with that message;
a successful capture gets the 200 PNG bytes. -/
theorem c7_qr_failure_kinds (w : World) (sessionId : String) (probe : String → SelProbe)
    (fullShot : Except String (List Nat)) :
    (storeGet w.sessions sessionId = none →
      serveQRCode w sessionId probe fullShot = QRRes.inactive) ∧
    (∀ s, storeGet w.sessions sessionId = some s →
      s.status ≠ SessionStatus.pending ∨ s.page = false →
      serveQRCode w sessionId probe fullShot = QRRes.inactive) ∧
    (∀ s m, storeGet w.sessions sessionId = some s → s.status = SessionStatus.pending →
      s.page = true → captureQRCode probe fullShot = Except.error m →
      serveQRCode w sessionId probe fullShot = QRRes.unavailable m) ∧
    (∀ s b, storeGet w.sessions sessionId = some s → s.status = SessionStatus.pending →
      s.page = true → captureQRCode probe fullShot = Except.ok b →
      serveQRCode w sessionId probe fullShot = QRRes.png b) := by
  refine ⟨fun h => by simp [serveQRCode, h], fun s hs hbad => ?_, fun s m hs hst hpg hc => ?_,
    fun s b hs hst hpg hc => ?_⟩
  · rcases hbad with hbad | hbad <;> simp [serveQRCode, hs, hbad]
  · simp [serveQRCode, hs, hst, hpg, hc]
  · simp [serveQRCode, hs, hst, hpg, hc]

/-- Witness for C7 at concrete inputs: a live pending session whose
capture throws is answered with the 500 unavailable response, not the
404 inactive one. -/
theorem c7_qr_failure_kinds_witness :
    serveQRCode
      { sessions := [("a", ⟨"a", SessionStatus.pending, 0, true, true, none, none,
          true, true, false⟩)],
        cookieSlot := { runtimeCookie := none, runtimeUpdatedAt := none }, inflight := [] } "a"
      (fun _ => ⟨false, Except.error ""⟩) (Except.error "boom") = QRRes.unavailable "boom" :=
  (c7_qr_failure_kinds
    { sessions := [("a", ⟨"a", SessionStatus.pending, 0, true, true, none, none,
        true, true, false⟩)],
      cookieSlot := { runtimeCookie := none, runtimeUpdatedAt := none }, inflight := [] } "a"
    (fun _ => ⟨false, Except.error ""⟩) (Except.error "boom")).2.2.1
    ⟨"a", SessionStatus.pending, 0, true, true, none, none, true, true, false⟩ "boom"
    (by decide) rfl rfl (by decide)

/-- Skipping a prefix of selectors that are absent or whose screenshots
throw leaves the capture loop at the remaining selectors. -/
theorem captureFrom_skip (probe : String → SelProbe) (fullShot : Except String (List Nat))
    (pre l : List String)
    (h : ∀ x ∈ pre, (probe x).present = false ∨ ∃ m, (probe x).shot = Except.error m) :
    captureFrom probe fullShot (pre ++ l) = captureFrom probe fullShot l := by
  induction pre with
  | nil => rfl
  | cons a pre ih =>
    have hrest : ∀ x ∈ pre, (probe x).present = false ∨ ∃ m, (probe x).shot = Except.error m :=
      fun x hx => h x (by simp [hx])
    by_cases hp : (probe a).present
    · rcases h a (by simp) with hfalse | ⟨m, hm⟩
      · rw [hp] at hfalse; exact absurd hfalse (by simp)
      · simpa [captureFrom, hp, hm] using ih hrest
    · simpa [captureFrom, hp] using ih hrest

/-- When no selector finds an element, the capture loop falls back to the
full-page screenshot. -/
theorem captureFrom_all_absent (probe : String → SelProbe)
    (fullShot : Except String (List Nat)) (l : List String)
    (h : ∀ x ∈ l, (probe x).present = false) :
    captureFrom probe fullShot l = fullShot := by
  induction l with
  | nil => rfl
  | cons a l ih =>
    have hp := h a (by simp)
    simpa [captureFrom, hp] using ih (fun x hx => h x (by simp [hx]))

/-- C8: QR capture tries the ordered selector list and falls back. For an
active session, if every selector before some position is absent or its
element screenshot throws, and the selector at that position finds an
element whose screenshot succeeds, the request is answered with 200 PNG
bytes of that element; and if no selector matches at all, the capture
returns the full-page screenshot. -/
theorem c8_selector_fallback (probe : String → SelProbe)
    (fullShot : Except String (List Nat)) :
    (∀ (w : World) (sessionId : String) (s : LoginSession) (pre post : List String)
        (sel : String) (b : List Nat),
      storeGet w.sessions sessionId = some s → s.status = SessionStatus.pending →
      s.page = true → qrSelectors = pre ++ sel :: post →
      (∀ x ∈ pre, (probe x).present = false ∨ ∃ m, (probe x).shot = Except.error m) →
      (probe sel).present = true → (probe sel).shot = Except.ok b →
      serveQRCode w sessionId probe fullShot = QRRes.png b) ∧
    ((∀ x ∈ qrSelectors, (probe x).present = false) →
      captureQRCode probe fullShot = fullShot) := by
  constructor
  · intro w sessionId s pre post sel b hs hst hpg hdecomp hpre hsel hshot
    have hc : captureQRCode probe fullShot = Except.ok b := by
      unfold captureQRCode
      rw [hdecomp, captureFrom_skip probe fullShot pre _ hpre]
      simp [captureFrom, hsel, hshot]
    simp [serveQRCode, hs, hst, hpg, hc]
  · intro h
    exact captureFrom_all_absent probe fullShot qrSelectors h

/-- Concrete probe for the C8 witness: the first selector's screenshot
throws, the second succeeds, the rest find nothing. -/
def qrProbeDemo (sel : String) : SelProbe :=
  if sel = ".login-container img" then ⟨true, Except.error "denied"⟩
  else if sel = ".login-qrcode img" then ⟨true, Except.ok [1, 2, 3]⟩
  else ⟨false, Except.error "absent"⟩

/-- Witness for C8 at concrete inputs: the primary selector's screenshot
fails, a fallback selector succeeds, and the response is still the 200
PNG bytes. -/
theorem c8_selector_fallback_witness :
    serveQRCode
      { sessions := [("a", ⟨"a", SessionStatus.pending, 0, true, true, none, none,
          true, true, false⟩)],
        cookieSlot := { runtimeCookie := none, runtimeUpdatedAt := none }, inflight := [] } "a"
      qrProbeDemo (Except.ok [9]) = QRRes.png [1, 2, 3] :=
  (c8_selector_fallback qrProbeDemo (Except.ok [9])).1
    { sessions := [("a", ⟨"a", SessionStatus.pending, 0, true, true, none, none,
        true, true, false⟩)],
      cookieSlot := { runtimeCookie := none, runtimeUpdatedAt := none }, inflight := [] } "a"
    ⟨"a", SessionStatus.pending, 0, true, true, none, none, true, true, false⟩
    [".login-container img"]
    [".reds-login-qrcode img", "img[src*=\"qrcode\"]", "canvas[aria-label*=qrcode]"]
    ".login-qrcode img" [1, 2, 3]
    (by decide) rfl rfl (by decide)
    (by
      intro x hx
      simp only [List.mem_singleton] at hx
      subst hx
      exact Or.inr ⟨"denied", by decide⟩)
    (by decide) (by decide)

/-- Reading back a `storeSet`: the written id yields the written session,
any other id is untouched. -/
theorem storeGet_set (st : SessionStore) (id j : String) (v : LoginSession) :
    storeGet (storeSet st id v) j = if id = j then some v else storeGet st j := by
  induction st with
  | nil => by_cases hij : id = j <;> simp [storeSet, storeGet, hij]
  | cons p rest ih =>
    obtain ⟨k, w⟩ := p
    by_cases hk : k = id
    · subst hk
      by_cases hij : k = j <;> simp [storeSet, storeGet, hij]
    · by_cases hkj : k = j
      · subst hkj
        have hij : ¬(id = k) := fun h => hk h.symm
        simp [storeSet, storeGet, hk, hij]
      · simp [storeSet, storeGet, hk, hkj, ih]

/-- Reading back a `storeDelete`: the deleted id is gone, any other id is
untouched. -/
theorem storeGet_delete (st : SessionStore) (id j : String) :
    storeGet (storeDelete st id) j = if id = j then none else storeGet st j := by
  induction st with
  | nil => by_cases hij : id = j <;> simp [storeDelete, storeGet, hij]
  | cons p rest ih =>
    obtain ⟨k, w⟩ := p
    by_cases hk : k = id
    · subst hk
      by_cases hij : k = j
      · subst hij
        simpa [storeDelete, storeGet] using ih
      · simp [storeDelete, storeGet, hij, ih]
    · by_cases hkj : k = j
      · subst hkj
        have hij : ¬(id = k) := fun h => hk h.symm
        simp [storeDelete, storeGet, hk, hij]
      · simp [storeDelete, storeGet, hk, hkj, ih]

/-- Cleanup touches only the page, teardown and timer fields: the id,
status, creation time, cookie and error of a session survive it. -/
theorem cleanup_preserves (s : LoginSession) (dt : Bool) :
    (cleanupSessionResources s dt).1.id = s.id ∧
    (cleanupSessionResources s dt).1.status = s.status ∧
    (cleanupSessionResources s dt).1.createdAt = s.createdAt ∧
    (cleanupSessionResources s dt).1.cookie = s.cookie ∧
    (cleanupSessionResources s dt).1.error = s.error := by
  obtain ⟨i, st, ca, pg, ds, ck, er, mo, ex, rm⟩ := s
  cases pg <;> cases ds <;> cases mo <;> cases ex <;> cases rm <;>
    simp [cleanupSessionResources]

/-- The per-session invariant of the spec: the cookie is populated exactly
in status `success`, the error exactly in status `failed`. -/
def sessionInv (s : LoginSession) : Prop :=
  (s.cookie ≠ none ↔ s.status = SessionStatus.success) ∧
  (s.error ≠ none ↔ s.status = SessionStatus.failed)


/-- An instance of `sessionInv` violated at a concrete session is
decidable. -/
instance (s : LoginSession) : Decidable (sessionInv s) := by
  unfold sessionInv
  infer_instance

/-- C1: the claimed invariant (cookie populated iff `success`, error
populated iff `failed` after every operation) is broken by a reachable
race in the code. Trace: a session is created; two monitor ticks fire
while it is still pending, each issuing an awaited `page.cookies()` read;
the first read settles with a `web_session` cookie (status `success`,
cookie stored); the second read then rejects, and the catch overwrites
status and error with no re-check and without clearing the cookie. The
reachable end state has status `failed` with the cookie still populated,
violating the invariant. -/
theorem c1_monitor_race_breaks_invariant :
    storeGet (run initWorld
        [Op.create "a" 0 ⟨true, true, true, false⟩,
         Op.monitorFire "a",
         Op.monitorFire "a",
         Op.cookiesSettle "a" 5 (MonitorRead.cookies [("web_session", "abc")]) false,
         Op.cookiesSettle "a" 9 (MonitorRead.fail "page closed") false]).sessions "a" =
      some ⟨"a", SessionStatus.failed, 0, false, false, some "web_session=abc",
        some "page closed", false, false, true⟩ ∧
    ¬ sessionInv ⟨"a", SessionStatus.failed, 0, false, false, some "web_session=abc",
        some "page closed", false, false, true⟩ := by decide

/-- C2: the claimed stickiness of terminal states (a session that reached
`expired` never subsequently reaches `success` or `failed`) is broken by
the race the spec itself flags. Trace: a session is created; a monitor
tick issues an awaited `page.cookies()` read while it is pending; the TTL
expire timer fires first, moving the session to `expired` and cleaning it
up; the in-flight read then resolves with a `web_session` cookie, and the
continuation overwrites `expired` with `success` with no re-check. The
first equality shows the session `expired` before the read settles; the
second shows it `success` afterwards. -/
theorem c2_expired_overwritten_by_late_read :
    storeGet (run initWorld
        [Op.create "a" 0 ⟨true, true, true, false⟩,
         Op.monitorFire "a",
         Op.expireTick "a" false]).sessions "a" =
      some ⟨"a", SessionStatus.expired, 0, false, false, none, none,
        false, false, true⟩ ∧
    storeGet (run initWorld
        [Op.create "a" 0 ⟨true, true, true, false⟩,
         Op.monitorFire "a",
         Op.expireTick "a" false,
         Op.cookiesSettle "a" 7 (MonitorRead.cookies [("web_session", "abc")]) false]).sessions "a" =
      some ⟨"a", SessionStatus.success, 0, false, false, some "web_session=abc", none,
        false, false, true⟩ := by decide

/-- Witness for C3 at concrete inputs: after cleaning up a full pending
session, the page and teardown references are cleared. -/
theorem c3_cleanup_idempotent_witness :
    (cleanupSessionResources
        ⟨"a", SessionStatus.expired, 0, true, true, none, none, true, true, false⟩
        false).1.page = false ∧
    (cleanupSessionResources
        ⟨"a", SessionStatus.expired, 0, true, true, none, none, true, true, false⟩
        false).1.destory = false :=
  (c3_cleanup_idempotent
    ⟨"a", SessionStatus.expired, 0, true, true, none, none, true, true, false⟩
    false true).2.2.2.2 rfl

/- ### Model of src/lib/routes/xiaohongshu/util.ts: the collect extraction pipeline -/

/-- A note object as handled by the collect merge: its three possible id
fields (absent, or a possibly empty string — the empty string is falsy in
JavaScript) and an opaque payload standing for the remaining fields. -/
structure Note where
  note_id : Option String
  noteId : Option String
  id : Option String
  rest : Nat
  deriving DecidableEq, Repr

/-- JavaScript truthiness of an optional string: the empty string is falsy. -/
def jsTruthyStr : Option String → Option String
  | none => none
  | some s => if s = "" then none else some s

/-- The id coalescing of `mergeCollectSources`:
`note.note_id || note.noteId || note.id`, with JavaScript truthiness. -/
def noteKey (n : Note) : Option String :=
  match jsTruthyStr n.note_id with
  | some k => some k
  | none =>
    match jsTruthyStr n.noteId with
    | some k => some k
    | none => jsTruthyStr n.id

/-- The fields of a collect payload object that the pipeline inspects. A
`some` list models a field holding an array (entries may be `none` for
falsy array elements); `none` models an absent or non-array field. -/
structure CollectData where
  notes : Option (List (Option Note)) := none
  note_list : Option (List (Option Note)) := none
  noteList : Option (List (Option Note)) := none
  has_more : Option Bool := none
  hasMore : Option Bool := none
  deriving DecidableEq, Repr

/-- A collect value: either a bare array of notes, or an object with an
optional `data` sub-object and its own top-level note fields. -/
inductive Collect where
  | arr (ns : List (Option Note))
  | obj (data : Option CollectData) (top : CollectData)
  deriving DecidableEq, Repr

/-- `selectCollectNotes` of util.ts: a null collect yields nothing; an
array yields its truthy entries; an object is probed in order through
`(data ?? collect).notes`, `(data ?? collect).note_list`, `collect.notes`,
`collect.noteList`, taking the first field that holds an array, filtered
to its truthy entries. -/
def selectCollectNotes : Option Collect → List Note
  | none => []
  | some (Collect.arr ns) => ns.filterMap (fun x => x)
  | some (Collect.obj data top) =>
    let d := data.getD top
    match d.notes with
    | some l => l.filterMap (fun x => x)
    | none =>
      match d.note_list with
      | some l => l.filterMap (fun x => x)
      | none =>
        match top.notes with
        | some l => l.filterMap (fun x => x)
        | none =>
          match top.noteList with
          | some l => l.filterMap (fun x => x)
          | none => []

/-- `hasMoreCollectFlag` of util.ts: the boolean `has_more` (snake case
first) of `data ?? collect`, when present. -/
def hasMoreCollectFlag : Option Collect → Option Bool
  | none => none
  | some (Collect.arr _) => none
  | some (Collect.obj data top) =>
    let d := data.getD top
    match d.has_more with
    | some b => some b
    | none => d.hasMore

/-- One iteration of the inner loop of `mergeCollectSources`: skip a note
whose truthy id was already seen, otherwise record the id (when truthy)
and append the note. The state is the merged list and the seen-id set. -/
def mergeStep (st : List Note × List String) (note : Note) : List Note × List String :=
  match noteKey note with
  | none => (st.1 ++ [note], st.2)
  | some k => if k ∈ st.2 then st else (st.1 ++ [note], k :: st.2)

/-- `mergeCollectSources` of util.ts: fold every source's selected notes
through `mergeStep` with one shared seen-id set; return null when nothing
was merged, else the object-shaped result holding the merged notes. -/
def mergeCollectSources (sources : List (Option Collect)) : Option Collect :=
  let st := sources.foldl (fun acc s => (selectCollectNotes s).foldl mergeStep acc) ([], [])
  if st.1 = [] then none
  else some (Collect.obj (some { notes := some (st.1.map some) }) {})

/-- The notes contributed by a list of sources, in source order. -/
def allNotes : List (Option Collect) → List Note
  | [] => []
  | s :: ss => selectCollectNotes s ++ allNotes ss

/-- First-seen-wins deduplication by truthy id, starting from a seen set:
the reference reducer the merge is compared against. -/
def keepFirstFrom (seen : List String) : List Note → List Note
  | [] => []
  | n :: ns =>
    match noteKey n with
    | none => n :: keepFirstFrom seen ns
    | some k => if k ∈ seen then keepFirstFrom seen ns else n :: keepFirstFrom (k :: seen) ns

/-- The seen-id set after scanning a list of notes. -/
def seenAfter (seen : List String) : List Note → List String
  | [] => seen
  | n :: ns =>
    match noteKey n with
    | none => seenAfter seen ns
    | some k => if k ∈ seen then seenAfter seen ns else seenAfter (k :: seen) ns

/-- The inner merge fold equals appending the first-seen-wins selection and
updating the seen set. -/
theorem foldl_mergeStep (notes : List Note) (acc : List Note) (seen : List String) :
    notes.foldl mergeStep (acc, seen) =
      (acc ++ keepFirstFrom seen notes, seenAfter seen notes) := by
  induction notes generalizing acc seen with
  | nil => simp [keepFirstFrom, seenAfter]
  | cons n ns ih =>
    simp only [List.foldl_cons]
    cases hk : noteKey n with
    | none =>
      rw [show mergeStep (acc, seen) n = (acc ++ [n], seen) from by simp [mergeStep, hk]]
      rw [ih]
      simp [keepFirstFrom, seenAfter, hk]
    | some k =>
      by_cases hks : k ∈ seen
      · rw [show mergeStep (acc, seen) n = (acc, seen) from by simp [mergeStep, hk, hks]]
        rw [ih]
        simp [keepFirstFrom, seenAfter, hk, hks]
      · rw [show mergeStep (acc, seen) n = (acc ++ [n], k :: seen) from by
          simp [mergeStep, hk, hks]]
        rw [ih]
        simp [keepFirstFrom, seenAfter, hk, hks]

/-- `keepFirstFrom` over an appended list splits at the seen set reached
after the first part. -/
theorem keepFirstFrom_append (xs ys : List Note) (seen : List String) :
    keepFirstFrom seen (xs ++ ys) =
      keepFirstFrom seen xs ++ keepFirstFrom (seenAfter seen xs) ys := by
  induction xs generalizing seen with
  | nil => simp [keepFirstFrom, seenAfter]
  | cons n ns ih =>
    cases hk : noteKey n with
    | none => simp [keepFirstFrom, seenAfter, hk, ih]
    | some k =>
      by_cases hks : k ∈ seen <;> simp [keepFirstFrom, seenAfter, hk, hks, ih]

/-- `seenAfter` over an appended list composes. -/
theorem seenAfter_append (xs ys : List Note) (seen : List String) :
    seenAfter seen (xs ++ ys) = seenAfter (seenAfter seen xs) ys := by
  induction xs generalizing seen with
  | nil => simp [seenAfter]
  | cons n ns ih =>
    cases hk : noteKey n with
    | none => simp [seenAfter, hk, ih]
    | some k =>
      by_cases hks : k ∈ seen <;> simp [seenAfter, hk, hks, ih]

/-- The outer merge fold over all sources equals the first-seen-wins
selection over the concatenation of all contributed notes. -/
theorem foldl_sources (sources : List (Option Collect)) (acc : List Note)
    (seen : List String) :
    sources.foldl (fun st s => (selectCollectNotes s).foldl mergeStep st) (acc, seen) =
      (acc ++ keepFirstFrom seen (allNotes sources), seenAfter seen (allNotes sources)) := by
  induction sources generalizing acc seen with
  | nil => simp [allNotes, keepFirstFrom, seenAfter]
  | cons s ss ih =>
    simp only [List.foldl_cons]
    rw [foldl_mergeStep, ih]
    simp [allNotes, keepFirstFrom_append, seenAfter_append]

/-- Filtering the `some` wrappers back out of a mapped list is the
identity. -/
theorem filterMap_map_some (l : List Note) :
    (l.map some).filterMap (fun x => x) = l := by
  induction l with
  | nil => rfl
  | cons n ns ih => simp [ih]

/-- First-seen-wins selection from an empty seen set is empty only on the
empty list. -/
theorem keepFirstFrom_nil_iff (l : List Note) :
    keepFirstFrom [] l = [] ↔ l = [] := by
  cases l with
  | nil => simp [keepFirstFrom]
  | cons n ns =>
    simp only [keepFirstFrom]
    cases hk : noteKey n with
    | none => simp
    | some k => simp

/-- The notes selected from the merge result are exactly the first-seen-wins
selection over all contributed notes. -/
theorem select_merge (sources : List (Option Collect)) :
    selectCollectNotes (mergeCollectSources sources) =
      keepFirstFrom [] (allNotes sources) := by
  unfold mergeCollectSources
  rw [foldl_sources]
  simp only [List.nil_append]
  by_cases he : keepFirstFrom [] (allNotes sources) = []
  · simp [he, selectCollectNotes]
  · simp only [he, if_neg he, selectCollectNotes, Option.getD]
    exact filterMap_map_some _

/-- The concatenation of contributed notes is empty exactly when every
source contributes nothing. -/
theorem allNotes_eq_nil_iff (sources : List (Option Collect)) :
    allNotes sources = [] ↔ ∀ s ∈ sources, selectCollectNotes s = [] := by
  induction sources with
  | nil => simp [allNotes]
  | cons s ss ih => simp [allNotes, ih]

/-- The merge returns null exactly when every source contributes nothing. -/
theorem merge_eq_none_iff (sources : List (Option Collect)) :
    mergeCollectSources sources = none ↔ ∀ s ∈ sources, selectCollectNotes s = [] := by
  unfold mergeCollectSources
  rw [foldl_sources]
  simp only [List.nil_append]
  by_cases he : keepFirstFrom [] (allNotes sources) = []
  · rw [keepFirstFrom_nil_iff] at he
    simp [keepFirstFrom_nil_iff, he, ← allNotes_eq_nil_iff]
  · have hne := he
    rw [keepFirstFrom_nil_iff] at hne
    simp [he, ← allNotes_eq_nil_iff, hne]

/-- Boolean test: the note carries no truthy id. -/
def hasNoKey (n : Note) : Bool := (noteKey n).isNone

/-- Boolean test: the note's coalesced truthy id is `k`. -/
def keyIs (k : String) (n : Note) : Bool := decide (noteKey n = some k)

/-- First-seen-wins selection keeps every note that carries no id. -/
theorem keepFirstFrom_filter_noKey (l : List Note) :
    ∀ seen, (keepFirstFrom seen l).filter hasNoKey = l.filter hasNoKey := by
  induction l with
  | nil => intro seen; rfl
  | cons n ns ih =>
    intro seen
    cases hk : noteKey n with
    | none => simp [keepFirstFrom, hk, List.filter_cons, hasNoKey, ih seen]
    | some k =>
      by_cases hks : k ∈ seen
      · simp [keepFirstFrom, hk, hks, List.filter_cons, hasNoKey, ih]
      · simp [keepFirstFrom, hk, hks, List.filter_cons, hasNoKey, ih]

/-- No note with an already-seen id survives the selection. -/
theorem keepFirstFrom_filter_key_mem (k : String) (l : List Note) :
    ∀ seen, k ∈ seen → (keepFirstFrom seen l).filter (keyIs k) = [] := by
  induction l with
  | nil => intro seen _; rfl
  | cons n ns ih =>
    intro seen hks
    cases hk : noteKey n with
    | none =>
      have hkn : keyIs k n = false := by simp [keyIs, hk]
      simp [keepFirstFrom, hk, List.filter_cons, hkn, ih seen hks]
    | some k' =>
      by_cases hk's : k' ∈ seen
      · simp [keepFirstFrom, hk, hk's, ih seen hks]
      · have hkk' : ¬(k' = k) := fun h => hk's (h ▸ hks)
        have hkn : keyIs k n = false := by simp [keyIs, hk, hkk']
        simp [keepFirstFrom, hk, hk's, List.filter_cons, hkn,
          ih (k' :: seen) (List.mem_cons_of_mem _ hks)]

/-- For an unseen id, the selection keeps exactly the first note carrying
it. -/
theorem keepFirstFrom_filter_key (k : String) (l : List Note) :
    ∀ seen, k ∉ seen →
      (keepFirstFrom seen l).filter (keyIs k) = (l.filter (keyIs k)).take 1 := by
  induction l with
  | nil => intro seen _; rfl
  | cons n ns ih =>
    intro seen hks
    cases hk : noteKey n with
    | none =>
      have hkn : keyIs k n = false := by simp [keyIs, hk]
      simp [keepFirstFrom, hk, List.filter_cons, hkn, ih seen hks]
    | some k' =>
      by_cases hkk : k' = k
      · subst hkk
        have hkn : keyIs k' n = true := by simp [keyIs, hk]
        simp [keepFirstFrom, hk, hks, List.filter_cons, hkn,
          keepFirstFrom_filter_key_mem k' ns (k' :: seen) (List.mem_cons_self _ _)]
      · have hkn : keyIs k n = false := by simp [keyIs, hk, hkk]
        by_cases hk's : k' ∈ seen
        · simp [keepFirstFrom, hk, hk's, List.filter_cons, hkn, ih seen hks]
        · have hknotin : k ∉ k' :: seen := by
            intro hm
            rcases List.mem_cons.mp hm with h1 | h1
            · exact hkk h1.symm
            · exact hks h1
          simp [keepFirstFrom, hk, hk's, List.filter_cons, hkn, ih (k' :: seen) hknotin]

/-- C9: the merge reducer deduplicates by truthy unique id with
first-seen-wins semantics. It returns null exactly when no source
contributes any note; notes carrying no id are all kept; and for every id
the merged output holds exactly the first contributed note bearing that
id, in source order. -/
theorem c9_merge_first_seen_wins (sources : List (Option Collect)) :
    (mergeCollectSources sources = none ↔ ∀ s ∈ sources, selectCollectNotes s = []) ∧
    (selectCollectNotes (mergeCollectSources sources)).filter hasNoKey =
      (allNotes sources).filter hasNoKey ∧
    (∀ k, (selectCollectNotes (mergeCollectSources sources)).filter (keyIs k) =
      ((allNotes sources).filter (keyIs k)).take 1) := by
  refine ⟨merge_eq_none_iff sources, ?_, ?_⟩
  · rw [select_merge]
    exact keepFirstFrom_filter_noKey (allNotes sources) []
  · intro k
    rw [select_merge]
    exact keepFirstFrom_filter_key k (allNotes sources) [] (by simp)

/-- Witness for C9 at concrete inputs: two sources both carrying id x;
only the first note with that id survives, while the note without an id
is kept. -/
theorem c9_merge_first_seen_wins_witness :
    List.filter (keyIs "x") (selectCollectNotes (mergeCollectSources
        [some (Collect.arr [some ⟨some "x", none, none, 1⟩, some ⟨none, none, none, 2⟩]),
         some (Collect.obj (some { notes := some [some ⟨some "x", none, none, 3⟩] }) {})])) =
    List.take 1 (List.filter (keyIs "x") (allNotes
        [some (Collect.arr [some ⟨some "x", none, none, 1⟩, some ⟨none, none, none, 2⟩]),
         some (Collect.obj (some { notes := some [some ⟨some "x", none, none, 3⟩] }) {})])) :=
  (c9_merge_first_seen_wins
    [some (Collect.arr [some ⟨some "x", none, none, 1⟩, some ⟨none, none, none, 2⟩]),
     some (Collect.obj (some { notes := some [some ⟨some "x", none, none, 3⟩] }) {})]).2.2 "x"

/-- The failures `getUserCollect` can raise: a rejected page open, a
navigation failure, the QR/tab selector wait timing out, the captcha wall,
the login redirect, a thrown initial-state evaluation, a thrown scroll
evaluation, a thrown DOM extraction, the final no-data rejection, and a
rejected page teardown in the finally block. -/
inductive CollectErr where
  | pageOpen
  | goto
  | waitSelector
  | captcha
  | login
  | evalState
  | scroll
  | dom
  | noData
  | destoryFail
  deriving DecidableEq, Repr

/-- Environment of one `getUserCollect` execution: the result of the prior
HTTP fetch (`fetchCollectFromHtml` catches internally, so it never
throws), whether each awaited browser step resolves, and the values the
extraction strategies produce when reached. `ssrCollect` stands for
`extractCollectFromState` of the initial state, `apiPayloads` for the
intercepted collect API responses gathered by the response listener, and
`domCollect` for `extractCollectFromDom`. Element lookups (`page.$`) are
treated as total. -/
structure CollectEnv where
  httpCollect : Option Collect
  pageOpenOk : Bool
  gotoOk : Bool
  waitSelectorOk : Bool
  captcha : Bool
  loginRedirect : Bool
  evalOk : Bool
  ssrCollect : Option Collect
  scrollOk : Bool
  apiPayloads : List Collect
  domOk : Bool
  domCollect : Option Collect
  destoryOk : Bool
  deriving DecidableEq, Repr

/-- JavaScript nullish coalescing `a ?? b` on collect values. -/
def jsNullish (a b : Option Collect) : Option Collect :=
  match a with
  | some c => some c
  | none => b

/-- The guarded try block of `getUserCollect`: thread `collectResult`
through the merge points, stopping at the first throwing step. Returns the
partial result held at exit together with the thrown error, if any. -/
def collectBody (env : CollectEnv) : Option Collect × Option CollectErr :=
  let cr0 := env.httpCollect
  if !env.gotoOk then (cr0, some CollectErr.goto)
  else if !env.waitSelectorOk then (cr0, some CollectErr.waitSelector)
  else if env.captcha then (cr0, some CollectErr.captcha)
  else if env.loginRedirect then (cr0, some CollectErr.login)
  else if !env.evalOk then (cr0, some CollectErr.evalState)
  else
    let cr1 := jsNullish (mergeCollectSources [cr0, env.ssrCollect]) cr0
    if !env.scrollOk then (cr1, some CollectErr.scroll)
    else
      let apiCollect := mergeCollectSources (env.apiPayloads.map some)
      let cr2 := jsNullish (mergeCollectSources [cr1, apiCollect]) cr1
      if !env.domOk then (cr2, some CollectErr.dom)
      else
        let cr3 := jsNullish (mergeCollectSources [cr2, env.domCollect]) cr2
        (cr3, if cr3 = none then some CollectErr.noData else none)

/-- `getUserCollect` of util.ts (inside its cache wrapper): if the HTTP
fetch produced a collect whose has-more flag is exactly false, return it
without opening a page. Otherwise open the page (a rejection propagates),
run the guarded block; on a throw, the partial result held at that moment
is returned when non-null, else the error is rethrown; at the very end a
null result raises the no-data failure. A rejected teardown in the
finally block replaces any outcome with its own failure. -/
def getUserCollect (env : CollectEnv) : Except CollectErr Collect :=
  if env.httpCollect ≠ none ∧ hasMoreCollectFlag env.httpCollect = some false then
    match env.httpCollect with
    | some c => Except.ok c
    | none => Except.error CollectErr.noData
  else if !env.pageOpenOk then Except.error CollectErr.pageOpen
  else
    let body := collectBody env
    let r : Except CollectErr Collect :=
      match body.2 with
      | none =>
        match body.1 with
        | some c => Except.ok c
        | none => Except.error CollectErr.noData
      | some e =>
        match body.1 with
        | some c => Except.ok c
        | none => Except.error e
    if env.destoryOk then r else Except.error CollectErr.destoryFail

/-- The SSR strategy is consulted when execution reaches its merge point:
navigation, the selector wait, the captcha check, the login-redirect
check and the state evaluation all pass. -/
def ssrConsulted (env : CollectEnv) : Bool :=
  env.gotoOk && env.waitSelectorOk && !env.captcha && !env.loginRedirect && env.evalOk

/-- The intercepted API payloads are consulted once the scroll phase also
completes. -/
def apiConsulted (env : CollectEnv) : Bool :=
  ssrConsulted env && env.scrollOk

/-- The DOM scrape is consulted once its evaluation also completes. -/
def domConsulted (env : CollectEnv) : Bool :=
  apiConsulted env && env.domOk

/-- The sources actually consulted in this execution, in pipeline order. -/
def consultedSources (env : CollectEnv) : List (Option Collect) :=
  [env.httpCollect] ++
  (if ssrConsulted env then [env.ssrCollect] else []) ++
  (if apiConsulted env then env.apiPayloads.map some else []) ++
  (if domConsulted env then [env.domCollect] else [])

/-- The merged yield of all strategies consulted in this execution. -/
def consultedYield (env : CollectEnv) : Option Collect :=
  mergeCollectSources (consultedSources env)

/-- Concrete environment refuting C4 as stated: the HTTP fetch yields a
non-empty collect (with no conclusive has-more flag), and the later
page-open step throws. -/
def collectEnvCx : CollectEnv :=
  { httpCollect := some (Collect.obj (some { notes := some [some ⟨some "n1", none, none, 0⟩] }) {})
    pageOpenOk := false, gotoOk := true, waitSelectorOk := true, captcha := false
    loginRedirect := false, evalOk := true, ssrCollect := none, scrollOk := true
    apiPayloads := [], domOk := true, domCollect := none, destoryOk := true }

/-- Counterexample to C4 as stated: the prior HTTP fetch strategy yields a
non-empty result, a later step (opening the browser page) throws, and the
pipeline nevertheless raises instead of returning the partial result —
because the page open sits before the guarded try block. -/
theorem c4_counterexample_page_open :
    getUserCollect collectEnvCx = Except.error CollectErr.pageOpen ∧
    selectCollectNotes collectEnvCx.httpCollect ≠ [] := by decide

/-- `a ?? b` is null exactly when both operands are. -/
theorem jsNullish_eq_none (a b : Option Collect) :
    jsNullish a b = none ↔ a = none ∧ b = none := by
  cases a <;> simp [jsNullish]

/-- A two-source merge is null exactly when both sources contribute
nothing. -/
theorem merge_pair_none (a b : Option Collect) :
    mergeCollectSources [a, b] = none ↔
      selectCollectNotes a = [] ∧ selectCollectNotes b = [] := by
  rw [merge_eq_none_iff]
  simp

/-- A merge result selects no notes exactly when it is null. -/
theorem select_merge_nil_iff (l : List (Option Collect)) :
    selectCollectNotes (mergeCollectSources l) = [] ↔ mergeCollectSources l = none := by
  rw [select_merge, keepFirstFrom_nil_iff, allNotes_eq_nil_iff, merge_eq_none_iff]

/-- If the guarded block exits holding no partial result, then the HTTP
fetch was null and every strategy consulted in this execution contributed
nothing. -/
theorem collectBody_none (env : CollectEnv) (hb : (collectBody env).1 = none) :
    env.httpCollect = none ∧
    (ssrConsulted env = true → selectCollectNotes env.ssrCollect = []) ∧
    (apiConsulted env = true → ∀ p ∈ env.apiPayloads, selectCollectNotes (some p) = []) ∧
    (domConsulted env = true → selectCollectNotes env.domCollect = []) := by
  obtain ⟨http, po, go, ws, cap, lr, ev, ssr, sc, api, dm, dom, dok⟩ := env
  cases go with
  | false =>
    simp only [collectBody] at hb
    simp at hb
    exact ⟨hb, by simp [ssrConsulted], by simp [apiConsulted, ssrConsulted],
      by simp [domConsulted, apiConsulted, ssrConsulted]⟩
  | true =>
  cases ws with
  | false =>
    simp only [collectBody] at hb
    simp at hb
    exact ⟨hb, by simp [ssrConsulted], by simp [apiConsulted, ssrConsulted],
      by simp [domConsulted, apiConsulted, ssrConsulted]⟩
  | true =>
  cases cap with
  | true =>
    simp only [collectBody] at hb
    simp at hb
    exact ⟨hb, by simp [ssrConsulted], by simp [apiConsulted, ssrConsulted],
      by simp [domConsulted, apiConsulted, ssrConsulted]⟩
  | false =>
  cases lr with
  | true =>
    simp only [collectBody] at hb
    simp at hb
    exact ⟨hb, by simp [ssrConsulted], by simp [apiConsulted, ssrConsulted],
      by simp [domConsulted, apiConsulted, ssrConsulted]⟩
  | false =>
  cases ev with
  | false =>
    simp only [collectBody] at hb
    simp at hb
    exact ⟨hb, by simp [ssrConsulted], by simp [apiConsulted, ssrConsulted],
      by simp [domConsulted, apiConsulted, ssrConsulted]⟩
  | true =>
  cases sc with
  | false =>
    simp only [collectBody] at hb
    simp at hb
    rw [jsNullish_eq_none] at hb
    obtain ⟨hm, hh⟩ := hb
    rw [merge_pair_none] at hm
    exact ⟨hh, fun _ => hm.2, by simp [apiConsulted], by simp [domConsulted, apiConsulted]⟩
  | true =>
  cases dm with
  | false =>
    simp only [collectBody] at hb
    simp at hb
    rw [jsNullish_eq_none] at hb
    obtain ⟨hm2, h1⟩ := hb
    rw [merge_pair_none] at hm2
    have hapi : ∀ p ∈ api, selectCollectNotes (some p) = [] := by
      have hsel := hm2.2
      rw [select_merge_nil_iff, merge_eq_none_iff] at hsel
      intro p hp
      exact hsel (some p) (List.mem_map_of_mem some hp)
    rw [jsNullish_eq_none] at h1
    obtain ⟨hm1, hh⟩ := h1
    rw [merge_pair_none] at hm1
    exact ⟨hh, fun _ => hm1.2, fun _ => hapi, by simp [domConsulted, apiConsulted]⟩
  | true =>
    simp only [collectBody] at hb
    simp at hb
    rw [jsNullish_eq_none] at hb
    obtain ⟨hm3, h2⟩ := hb
    rw [merge_pair_none] at hm3
    have hdom := hm3.2
    rw [jsNullish_eq_none] at h2
    obtain ⟨hm2, h1⟩ := h2
    rw [merge_pair_none] at hm2
    have hapi : ∀ p ∈ api, selectCollectNotes (some p) = [] := by
      have hsel := hm2.2
      rw [select_merge_nil_iff, merge_eq_none_iff] at hsel
      intro p hp
      exact hsel (some p) (List.mem_map_of_mem some hp)
    rw [jsNullish_eq_none] at h1
    obtain ⟨hm1, hh⟩ := h1
    rw [merge_pair_none] at hm1
    exact ⟨hh, fun _ => hm1.2, fun _ => hapi, fun _ => hdom⟩

/-- C4 (amended): partial-data tolerance of the guarded extraction phase.
Once the browser page has been opened and provided its teardown succeeds,
the pipeline raises only when every strategy consulted in the execution
(the prior HTTP fetch, and whichever of SSR state, intercepted API
payloads and DOM scrape were reached before a throwing step) contributed
nothing; conversely, whenever the merged yield of the consulted
strategies is non-empty, the pipeline returns a merged result instead of
raising, even if a later step inside the guarded phase throws. -/
theorem c4_partial_data_policy (env : CollectEnv)
    (hopen : env.pageOpenOk = true) (hdest : env.destoryOk = true) :
    (consultedYield env ≠ none → ∃ c, getUserCollect env = Except.ok c) ∧
    (∀ e, getUserCollect env = Except.error e → consultedYield env = none) := by
  have dir2 : ∀ e, getUserCollect env = Except.error e → consultedYield env = none := by
    intro e he
    by_cases hshort : env.httpCollect ≠ none ∧ hasMoreCollectFlag env.httpCollect = some false
    · unfold getUserCollect at he
      rw [if_pos hshort] at he
      cases hc : env.httpCollect with
      | none => exact absurd hc hshort.1
      | some c =>
        rw [hc] at he
        simp at he
    · unfold getUserCollect at he
      rw [if_neg hshort] at he
      simp only [hopen, hdest, Bool.not_true] at he
      simp at he
      have hb1 : (collectBody env).1 = none := by
        cases h2 : (collectBody env).2 with
        | none =>
          cases h1 : (collectBody env).1 with
          | some c =>
            rw [h1, h2] at he
            simp at he
          | none => rfl
        | some err =>
          cases h1 : (collectBody env).1 with
          | some c =>
            rw [h1, h2] at he
            simp at he
          | none => rfl
      obtain ⟨hh, hssr, hapi, hdom⟩ := collectBody_none env hb1
      rw [consultedYield, merge_eq_none_iff]
      intro s hs
      rw [consultedSources] at hs
      simp only [List.mem_append, List.mem_singleton] at hs
      rcases hs with ((hs | hs) | hs) | hs
      · rw [hs, hh]
        rfl
      · by_cases hc : ssrConsulted env = true
        · rw [hc] at hs
          simp at hs
          rw [hs]
          exact hssr hc
        · simp [hc] at hs
      · by_cases hc : apiConsulted env = true
        · rw [hc] at hs
          simp only [if_true] at hs
          obtain ⟨p, hp, hps⟩ := List.mem_map.mp hs
          rw [← hps]
          exact hapi hc p hp
        · simp [hc] at hs
      · by_cases hc : domConsulted env = true
        · rw [hc] at hs
          simp at hs
          rw [hs]
          exact hdom hc
        · simp [hc] at hs
  refine ⟨?_, dir2⟩
  intro hy
  cases hres : getUserCollect env with
  | ok c => exact ⟨c, rfl⟩
  | error e => exact absurd (dir2 e hres) hy

/-- Concrete environment for the C4 witness: the HTTP fetch yields
nothing, the SSR state yields one note, and the scroll step then throws. -/
def collectEnvDemo : CollectEnv :=
  { httpCollect := none
    pageOpenOk := true, gotoOk := true, waitSelectorOk := true, captcha := false
    loginRedirect := false, evalOk := true
    ssrCollect := some (Collect.arr [some ⟨some "n2", none, none, 7⟩])
    scrollOk := false, apiPayloads := [], domOk := true, domCollect := none
    destoryOk := true }

/-- Witness for the amended C4 at concrete inputs: the SSR strategy
yielded a note before the scroll step threw, so the pipeline returns the
partial merged result instead of raising. -/
theorem c4_partial_data_policy_witness :
    ∃ c, getUserCollect collectEnvDemo = Except.ok c :=
  (c4_partial_data_policy collectEnvDemo rfl rfl).1 (by decide)
